import Mathlib

/-!
Verification development for the CryptoBoard backend
(`cryptoboard-backend/main.py`).

The backend loads two CSV tables into pandas DataFrames
(`articles_df` with columns `title`, `link`, `content`, and
`word_counts_df` with columns `word`, `count`) and serves seven
read-only aggregation endpoints.  This file shallowly embeds those
endpoint bodies as Lean functions over explicit list-based tables and
proves or refutes the frozen specification claims about them.

Modelling conventions:
* a DataFrame is a `List` of records, in row order;
* a cell that may be missing (NaN in pandas) is an `Option`;
* Python exceptions are modelled with `Except String`; operations that
  cannot raise are plain functions;
* `str.split()` (no argument) splits on whitespace runs and drops
  empty tokens, as in Python;
* pandas `Series.str.contains(pat)` compiles `pat` as a regular
  expression (`regex=True` is the default); the regular-expression
  fragment the embedding supports is literals, `.`, `*`, `+`, `?`,
  `|`, grouping parentheses and escaped punctuation, with
  unsupported constructs reported as a parse error, mirroring
  `re.error` for genuinely invalid patterns;
* FastAPI delegates responses to Starlette `JSONResponse`, whose
  `render` calls `json.dumps(..., allow_nan=False)` and therefore
  raises `ValueError` on any NaN in the payload; the embedding models
  this render step wherever the payload can carry a NaN — the NaN mean
  of an empty `content` column in `/api/meta`, and missing `title` or
  `link` cells left as float NaN by `to_dict(orient=records)` in
  `/api/newsfeed` and `/api/by-coin` (`renderRows`).  Counts and
  word-count rows are ints and strings and always serialize.
-/

namespace CryptoBoard

/-- Row of `articles.csv` as loaded into `articles_df`: columns
`title`, `link`, `content`.  `link` and `content` may be missing
(NaN), which the endpoints observe via `na=False`, crash on, or fail
to serialize (`renderRows`). -/
structure Article where
  title : Option String
  link : Option String
  content : Option String
  deriving Repr, DecidableEq

/-- Row of `word_counts.csv` as loaded into `word_counts_df`: the
`word` and `count` columns that the endpoints read. -/
structure WordCountRecord where
  word : String
  count : Nat
  deriving Repr, DecidableEq

/-- Python `str.split()` with no separator: split on whitespace runs,
dropping empty pieces (so `"".split()` is `[]`). -/
def pySplit (s : String) : List String :=
  (s.split Char.isWhitespace).filter (fun t => t ≠ "")

/-- Insertion-ordered keys of a list, keeping the first occurrence of
each element, as Python dict/Counter insertion order does. -/
def dedupFirst : List String → List String
  | [] => []
  | w :: ws => w :: (dedupFirst ws).filter (fun v => v ≠ w)

/-- `collections.Counter(word_list)` as an association list in key
insertion order: each distinct token paired with its number of
occurrences. -/
def counterOf (ws : List String) : List (String × Nat) :=
  (dedupFirst ws).map (fun w => (w, ws.count w))

/-- Python `str.lower()` over the ASCII range, written character-wise
so that it evaluates by kernel reduction. -/
def pyLower (s : String) : String :=
  String.mk (s.toList.map Char.toLower)

/-- The stop-word set hard-coded in `get_article_counter`. -/
def stop_words : List String :=
  ["the", "a", "an", "and", "or", "to", "in", "of", "for", "with", "on", "at"]

/-- Body of the `/api/article-counter` endpoint `get_article_counter`.
Per article it runs `row[content].split()`, builds a `Counter`,
filters stop words with a dict comprehension, and then calls
`.most_common(5)` on the result.  The dict comprehension produces a
plain `dict`, which has no `most_common` method, so the loop body
raises `AttributeError` on every article; a missing `content` cell
(float NaN) already raises at `.split()`.  Only an empty article
table reaches the final `return`. -/
def get_article_counter (articles : List Article) :
    Except String (List (String × List (String × Nat))) :=
  articles.foldlM
    (fun acc row => do
      let article ← match row.content with
        | some c => Except.ok c
        | none =>
            Except.error "AttributeError: float object has no attribute split"
      let word_list := pySplit article
      let word_count := counterOf word_list
      let filtered_words :=
        word_count.filter (fun kv => ¬ stop_words.contains (pyLower kv.1))
      let _ := filtered_words
      let _ := acc
      Except.error "AttributeError: dict object has no attribute most_common")
    []

/-- String order used for pandas `groupby(word)` group ordering
(`sort=True`, lexicographic ascending). -/
def strLe (a b : String) : Prop := a ≤ b

instance : DecidableRel strLe := fun a b => inferInstanceAs (Decidable (a ≤ b))

instance : IsTotal String strLe := ⟨fun a b => le_total a b⟩

instance : IsTrans String strLe := ⟨fun _ _ _ h h2 => le_trans h h2⟩

/-- Descending-count order used for `sort_values(count, ascending=False)`
on the grouped table (rows are word-indexed count cells). -/
def cntGe (a b : String × Nat) : Prop := b.2 ≤ a.2

instance : DecidableRel cntGe := fun a b => inferInstanceAs (Decidable (b.2 ≤ a.2))

instance : IsTotal (String × Nat) cntGe := ⟨fun a b => le_total b.2 a.2⟩

instance : IsTrans (String × Nat) cntGe := ⟨fun _ _ _ h h2 => le_trans h2 h⟩

/-- Sum of the `count` column over the rows of a word-count table whose
`word` equals `w`. -/
def sumCounts (tbl : List WordCountRecord) (w : String) : Nat :=
  (tbl.filter (fun r => r.word = w)).foldl (fun acc r => acc + r.count) 0

/-- Helper `get_word_counts`:
`word_counts_df.groupby(word).sum().sort_values(count, ascending=False).head(10)`.
The result is a DataFrame *indexed by* `word` whose single data column
is the summed `count`; we model it as `(word, count)` pairs where the
first component is the index.  Groups are formed in ascending word
order (pandas `sort=True`), then sorted by count descending and cut to
ten rows. -/
def get_word_counts (tbl : List WordCountRecord) : List (String × Nat) :=
  let grouped :=
    (List.insertionSort strLe (dedupFirst (tbl.map (fun r => r.word)))).map
      (fun w => (w, sumCounts tbl w))
  (List.insertionSort cntGe grouped).take 10

/-- Body of the `/api/word-cloud` endpoint `get_word_cloud`:
`get_word_counts().to_dict(orient=records)`.  `to_dict` with
`orient=records` emits only the *data columns* of each row and drops
the index — and after `groupby(word)` the word **is** the index — so
each emitted record holds only the summed count. -/
def get_word_cloud (tbl : List WordCountRecord) : List Nat :=
  (get_word_counts tbl).map (fun p => p.2)

/-- A rendered `title`/`link` record with a missing (NaN) cell:
`to_dict(orient=records)` keeps NaN as a float, which
`json.dumps(..., allow_nan=False)` rejects. -/
def rowHasNaN (p : Option String × Option String) : Bool :=
  p.1.isNone || p.2.isNone

/-- Starlette `JSONResponse.render` applied to a list of
`title`/`link` records: `json.dumps(..., allow_nan=False)` raises
`ValueError` as soon as any cell is NaN, and otherwise returns the
records unchanged (string cells always serialize). -/
def renderRows (rows : List (Option String × Option String)) :
    Except String (List (Option String × Option String)) :=
  if rows.any rowHasNaN then
    Except.error "ValueError: Out of range float values are not JSON compliant"
  else Except.ok rows

/-- Body of the `/api/newsfeed` endpoint `get_newsfeed`:
`articles_df[[title, link]].iloc[skip:skip+limit]`, i.e. project the
`title` and `link` columns and take the half-open row slice
`[skip, skip+limit)` — for the non-negative `skip` and `limit` the
claims quantify over, `iloc` slicing is exactly drop-then-take and
never raises — followed by the `JSONResponse` render, which raises
`ValueError` when a served row has a missing (NaN) title or link. -/
def get_newsfeed (articles : List Article) (skip : Nat) (limit : Nat) :
    Except String (List (Option String × Option String)) :=
  renderRows (((articles.map (fun a => (a.title, a.link))).drop skip).take limit)

/-- Body of the `/api/meta` endpoint `get_meta`:
`total_articles = articles_df.shape[0]` and
`avg_article_length = articles_df[content].apply(len).mean()`,
returned through `JSONResponse`.  `len` of a missing (NaN) content
cell raises `TypeError`; `mean()` of the empty column is NaN, and
Starlette `JSONResponse.render` uses `json.dumps(..., allow_nan=False)`
which raises `ValueError` on NaN, so the empty table errors at
serialization.  Otherwise the mean is the exact rational average of
the content lengths. -/
def get_meta (articles : List Article) : Except String (Nat × ℚ) := do
  let total_articles := articles.length
  let lens ← articles.mapM (fun a =>
    match a.content with
    | some c => Except.ok c.length
    | none => Except.error "TypeError: object of type float has no len")
  match lens with
  | [] =>
      Except.error "ValueError: Out of range float values are not JSON compliant"
  | _ =>
      Except.ok (total_articles,
        ((lens.foldl (fun acc n => acc + n) 0 : Nat) : ℚ) / (lens.length : ℚ))

/-! ### A model of Python `re` for the fragment the endpoints can see

`Series.str.contains(pat, ...)` compiles `pat` with `re.compile` and
tests `re.search` on every non-missing cell (`na=False` maps missing
cells to `False`).  We embed regular-expression abstract syntax with a
Brzozowski-derivative matcher and a parser for the fragment of Python
pattern syntax consisting of literal characters, `.`, the postfix
operators `*`, `+`, `?`, alternation `|`, grouping `(...)` and
backslash-escaped punctuation.  Constructs outside the fragment
(character classes, anchors, counted repetition, escape classes such
as a backslash followed by a letter) are rejected with an error, as is
genuinely invalid syntax (`re.error` in Python, e.g. a dangling `*` or
an unbalanced parenthesis). -/

/-- Regular-expression abstract syntax. -/
inductive RE where
  | emp : RE
  | eps : RE
  | chr : Char → RE
  | dot : RE
  | alt : RE → RE → RE
  | cat : RE → RE → RE
  | star : RE → RE
  deriving Repr, DecidableEq

/-- Does the language of `r` contain the empty string? -/
def nullable : RE → Bool
  | .emp => false
  | .eps => true
  | .chr _ => false
  | .dot => false
  | .alt a b => nullable a || nullable b
  | .cat a b => nullable a && nullable b
  | .star _ => true

/-- Smart concatenation (language-preserving simplification). -/
def rcat (a b : RE) : RE :=
  match a, b with
  | .emp, _ => .emp
  | _, .emp => .emp
  | .eps, b => b
  | a, .eps => a
  | a, b => .cat a b

/-- Smart alternation (language-preserving simplification). -/
def ralt (a b : RE) : RE :=
  match a, b with
  | .emp, b => b
  | a, .emp => a
  | a, b => if a = b then a else .alt a b

/-- Brzozowski derivative of `r` with respect to the character `c`. -/
def deriv (r : RE) (c : Char) : RE :=
  match r with
  | .emp => .emp
  | .eps => .emp
  | .chr d => if d = c then .eps else .emp
  | .dot => .eps
  | .alt a b => ralt (deriv a c) (deriv b c)
  | .cat a b =>
      if nullable a then ralt (rcat (deriv a c) b) (deriv b c)
      else rcat (deriv a c) b
  | .star a => rcat (deriv a c) (.star a)

/-- Whole-string match of `r` against a character list. -/
def matchRE (r : RE) (cs : List Char) : Bool :=
  nullable (cs.foldl deriv r)

/-- `re.search(r, s)`: some contiguous substring of `s` is in the
language of `r`; equivalently `s` matches `.* r .*` as a whole. -/
def reSearch (r : RE) (s : String) : Bool :=
  matchRE (.cat (.star .dot) (.cat r (.star .dot))) s.toList

/-- Characters that begin a construct outside the supported fragment
(character classes, anchors, counted repetition). -/
def unsupportedChars : List Char :=
  ['[', ']', '^', '$', Char.ofNat 123, Char.ofNat 125]

/-- Apply a postfix repetition operator, if present, to a parsed atom:
`a*`, `a+` (as `a a*`), `a?` (as `a | eps`). -/
def applyRepeatOp (a : RE) (cs : List Char) : RE × List Char :=
  match cs with
  | '*' :: rest => (.star a, rest)
  | '+' :: rest => (.cat a (.star a), rest)
  | '?' :: rest => (.alt a .eps, rest)
  | _ => (a, cs)

mutual

/-- Parse an alternation: sequences separated by the pipe character. -/
def parseAlt (fuel : Nat) (cs : List Char) : Except String (RE × List Char) :=
  match fuel with
  | 0 => Except.error "re.error: pattern too deep"
  | fuel + 1 => do
      let (r, rest) ← parseSeq fuel cs
      match rest with
      | '|' :: rest2 => do
          let (r2, rest3) ← parseAlt fuel rest2
          Except.ok (.alt r r2, rest3)
      | _ => Except.ok (r, rest)

/-- Parse a (possibly empty) sequence of postfixed atoms. -/
def parseSeq (fuel : Nat) (cs : List Char) : Except String (RE × List Char) :=
  match fuel with
  | 0 => Except.error "re.error: pattern too deep"
  | fuel + 1 =>
      match cs with
      | [] => Except.ok (.eps, [])
      | ')' :: _ => Except.ok (.eps, cs)
      | '|' :: _ => Except.ok (.eps, cs)
      | _ => do
          let (a, rest) ← parseAtom fuel cs
          let (a2, rest2) := applyRepeatOp a rest
          let (b, rest3) ← parseSeq fuel rest2
          Except.ok (.cat a2 b, rest3)

/-- Parse one atom: a literal, `.`, an escape, or a group. -/
def parseAtom (fuel : Nat) (cs : List Char) : Except String (RE × List Char) :=
  match fuel with
  | 0 => Except.error "re.error: pattern too deep"
  | fuel + 1 =>
      match cs with
      | [] => Except.error "re.error: expected atom"
      | c :: rest =>
          if c = '(' then do
            let (r, rest2) ← parseAlt fuel rest
            match rest2 with
            | ')' :: rest3 => Except.ok (r, rest3)
            | _ => Except.error "re.error: missing ), unterminated subpattern"
          else if c = '\\' then
            match rest with
            | [] => Except.error "re.error: bad escape (end of pattern)"
            | d :: rest2 =>
                if d.isAlphanum then
                  Except.error "unsupported: escape class"
                else Except.ok (.chr d, rest2)
          else if c = '.' then Except.ok (.dot, rest)
          else if c = '*' ∨ c = '+' ∨ c = '?' then
            Except.error "re.error: nothing to repeat"
          else if unsupportedChars.contains c then
            Except.error "unsupported: construct outside embedded fragment"
          else Except.ok (.chr c, rest)

end

/-- `re.compile(pat)` over the embedded fragment: parse the whole
pattern string or fail like `re.error` (or report an unsupported
construct). -/
def parseRE (pat : String) : Except String RE := do
  let (r, rest) ← parseAlt (pat.length * 2 + 4) pat.toList
  match rest with
  | [] => Except.ok r
  | _ => Except.error "re.error: unbalanced parenthesis"

/-- Descending-count order for `sort_values(by="count", ascending=False)`
on word-count rows. -/
def recGe (a b : WordCountRecord) : Prop := b.count ≤ a.count

instance : DecidableRel recGe := fun a b => inferInstanceAs (Decidable (b.count ≤ a.count))

instance : IsTotal WordCountRecord recGe := ⟨fun a b => le_total b.count a.count⟩

instance : IsTrans WordCountRecord recGe := ⟨fun _ _ _ h h2 => le_trans h2 h⟩

/-- Body of the `/api/word-trend` endpoint `get_word_trend`:
`word_counts_df[word_counts_df[word] == word]` (exact, case-sensitive
cell equality, preserving row order) then
`sort_values(by="count", ascending=False)`.  pandas leaves the
relative order of equal counts unspecified (quicksort kind); the
embedding fixes a stable sort, and the theorems below use only
order-insensitive consequences (membership up to permutation and
sortedness), which hold for any tie resolution. -/
def get_word_trend (tbl : List WordCountRecord) (word : String) :
    List WordCountRecord :=
  List.insertionSort recGe (tbl.filter (fun r => r.word = word))

/-- Does this article row pass `Series.str.contains(pat, na=False)` on
the `link` column for compiled pattern `r`?  A missing link is `False`
by `na=False`; otherwise `re.search`. -/
def linkContains (r : RE) (a : Article) : Bool :=
  match a.link with
  | none => false
  | some l => reSearch r l

/-- Does this article row pass
`Series.str.contains(pat, case=False, na=False)` on the `content`
column for a pattern compiled from the lowercased pattern string?
`case=False` adds `re.IGNORECASE`, which over the embedded fragment
(ASCII literals and punctuation) is equivalent to lowercasing both
pattern literals and text. -/
def contentContainsCI (r : RE) (a : Article) : Bool :=
  match a.content with
  | none => false
  | some c => reSearch r (pyLower c)

/-- Body of the `/api/comparative` endpoint `get_comparative`: count
the rows of `articles_df` whose `link` matches `category1`
(`str.contains(category1, na=False)`, regex, case-sensitive), and
separately those matching `category2`; return the two row counts.
Compiling `category1` happens first, so an invalid first pattern
raises before the second is compiled. -/
def get_comparative (articles : List Article) (category1 category2 : String) :
    Except String (Nat × Nat) := do
  let r1 ← parseRE category1
  let articles_in_category1 := articles.filter (fun a => linkContains r1 a)
  let r2 ← parseRE category2
  let articles_in_category2 := articles.filter (fun a => linkContains r2 a)
  Except.ok (articles_in_category1.length, articles_in_category2.length)

/-- Body of the `/api/by-coin` endpoint `get_by_coin`: keep the rows of
`articles_df` whose `content` matches `coin` case-insensitively
(`str.contains(coin, case=False, na=False)`, regex), in row order,
project the `title` and `link` columns, and render the records through
`JSONResponse`, which raises `ValueError` when a selected row has a
missing (NaN) title or link cell. -/
def get_by_coin (articles : List Article) (coin : String) :
    Except String (List (Option String × Option String)) := do
  let r ← parseRE (pyLower coin)
  let coin_articles := articles.filter (fun a => contentContainsCI r a)
  renderRows (coin_articles.map (fun a => (a.title, a.link)))

/-! ### Claim-side definitions

These definitions follow the words of the specification claims (not
the code); they exist to be compared with the embedded endpoint
bodies. -/

/-- Written from the claim wording: `needle` occurs in `hay` as a
contiguous case-sensitive substring. -/
def isSubstr (needle hay : String) : Bool :=
  (List.range (hay.toList.length + 1)).any
    (fun i => needle.toList.isPrefixOf ((hay.toList).drop i))

/-- Written from the claim wording: case-insensitive substring
occurrence (both sides lowercased). -/
def isSubstrCI (needle hay : String) : Bool :=
  isSubstr (pyLower needle) (pyLower hay)

/-- Written from the claim wording for C4 as stated: the number of
articles whose `link` contains the category as a case-sensitive
substring (a missing link contains nothing). -/
def countLinkSubstr (cat : String) (articles : List Article) : Nat :=
  (articles.filter (fun a =>
    match a.link with
    | none => false
    | some l => isSubstr cat l)).length

/-- Number of articles whose (present) `link` matches the compiled
pattern `r`, written as a stand-alone recursive recount for the
amended C4. -/
def countLinkMatches (r : RE) : List Article → Nat
  | [] => 0
  | a :: rest => (if linkContains r a then 1 else 0) + countLinkMatches r rest

/-- The `(title, link)` projections of the articles whose (present)
`content` matches the compiled pattern `r` case-insensitively, in
table order, written as a stand-alone recursion for the amended C5. -/
def selectByCoin (r : RE) : List Article → List (Option String × Option String)
  | [] => []
  | a :: rest =>
      if contentContainsCI r a then (a.title, a.link) :: selectByCoin r rest
      else selectByCoin r rest

/-! ### Fixtures used by witnesses -/

/-- Three-article fixture in the shape of the comparison
example of the specification: two links contain `media`, one contains
`politics`, one contains both. -/
def fixtureArticles : List Article :=
  [⟨some "t1", some "x/media/1", some "c1"⟩,
   ⟨some "t2", some "y/media-politics", some "c2"⟩,
   ⟨some "t3", some "z/other", some "c3"⟩]

/-- Word-count fixture with a repeated word. -/
def fixtureCounts : List WordCountRecord :=
  [⟨"btc", 3⟩, ⟨"eth", 5⟩, ⟨"btc", 7⟩]

/-- Coin fixture in the casing variants of the specification example. -/
def fixtureCoins : List Article :=
  [⟨some "t1", some "l1", some "Bitcoin up"⟩,
   ⟨some "t2", some "l2", some "BITCOIN"⟩,
   ⟨some "t3", some "l3", some "a BitCoin"⟩,
   ⟨some "t4", some "l4", some "no mention"⟩]

/-! ### Claims -/

/-- C1: claimed: `articleTopWords` returns one entry per article with
its top five non-stop-word tokens.  In the code, `filtered_words` is
built by a dict comprehension, so it is a plain `dict`, and the
subsequent `filtered_words.most_common(5)` raises
`AttributeError: dict object has no attribute most_common` on the
very first article; the endpoint returns an entry list only for the
empty table.  This theorem evaluates the embedded endpoint at a
one-article table and exhibits the raised exception, contradicting the
claimed behaviour. -/
theorem article_counter_always_raises :
    get_article_counter [⟨some "a", some "l", some "x y x z"⟩] =
      Except.error "AttributeError: dict object has no attribute most_common" := rfl

/-- C2: claimed: every aggregation operation terminates without an
exception for arguments of the declared types, and empty tables never
error.  The code violates this in several places, exhibited here at
concrete inputs: `/api/article-counter` raises `AttributeError` on any
non-empty article table (plain `dict` has no `most_common`), and
`/api/comparative` and `/api/by-coin` raise `re.error` for the string
argument `"("`, because `str.contains` compiles its argument as a
regular expression even over an empty table. -/
theorem aggregation_ops_raise :
    get_article_counter [⟨some "t", some "l", some "hello world"⟩] =
      Except.error "AttributeError: dict object has no attribute most_common" ∧
    get_comparative [] "(" "x" =
      Except.error "re.error: missing ), unterminated subpattern" ∧
    get_by_coin [] "(" =
      Except.error "re.error: missing ), unterminated subpattern" :=
  ⟨rfl, rfl, rfl⟩

/-- C3: claimed: each `/api/word-cloud` record contains both the word
and its count.  In the code `groupby(word)` moves the word into the
DataFrame index, and `to_dict(orient=records)` emits only data
columns, dropping the index — so each emitted record holds the summed
count alone.  Evaluated at a one-row table: the grouped frame does
pair the word with the count, but the rendered record list is just
`[3]`, with no word field. -/
theorem word_cloud_records_lack_word :
    get_word_counts [⟨"btc", 3⟩] = [("btc", 3)] ∧
    get_word_cloud [⟨"btc", 3⟩] = [3] :=
  ⟨rfl, rfl⟩

/-- C8: claimed: `datasetMeta` on an empty article table returns
`total_articles = 0` and a defined average without raising.  In the
code the mean over the empty `content` column is floating NaN, and
the FastAPI `JSONResponse` (Starlette) renders with
`json.dumps(..., allow_nan=False)`, which raises
`ValueError: Out of range float values are not JSON compliant`; the
endpoint therefore raises on the empty table instead of answering. -/
theorem meta_empty_table_raises :
    get_meta [] =
      Except.error "ValueError: Out of range float values are not JSON compliant" := rfl

/-- C6: `get_word_trend` returns exactly the rows whose `word` cell
equals the argument under case-sensitive equality (as a multiset: the
result is a permutation of the filtered rows), the result is sorted by
`count` descending, and it is empty when no row matches.  pandas
leaves the order of tied counts unspecified, and the claim does not
constrain it, so only these order-insensitive facts are asserted. -/
theorem word_trend_exact_filter_sorted (tbl : List WordCountRecord) (word : String) :
    (get_word_trend tbl word).Perm (tbl.filter (fun r => r.word = word)) ∧
    List.Sorted recGe (get_word_trend tbl word) ∧
    ((∀ r ∈ tbl, r.word ≠ word) → get_word_trend tbl word = []) := by
  refine ⟨List.perm_insertionSort _ _, List.sorted_insertionSort _ _, fun h => ?_⟩
  unfold get_word_trend
  rw [List.filter_eq_nil_iff.mpr (by simpa using h)]
  rfl

/-- Witness for C6 at the concrete fixture: the present word gives back
a permutation of its rows, and an absent word gives the empty list. -/
theorem word_trend_exact_filter_sorted_w :
    (get_word_trend fixtureCounts "btc").Perm
      (fixtureCounts.filter (fun r => r.word = "btc")) ∧
    get_word_trend fixtureCounts "doge" = [] :=
  ⟨(word_trend_exact_filter_sorted fixtureCounts "btc").1,
   (word_trend_exact_filter_sorted fixtureCounts "doge").2.2 (by decide)⟩

/-- Concatenating `take N` chunks at offsets `0, N, 2N, …` of a list
rebuilds its prefix of length `k * N`. -/
theorem flatMap_range_chunks {α : Type} (l : List α) (N : Nat) :
    ∀ k : Nat, (List.range k).flatMap (fun i => (l.drop (i * N)).take N) =
      l.take (k * N)
  | 0 => by simp
  | k + 1 => by
      rw [List.range_succ, List.flatMap_append, flatMap_range_chunks l N k,
        Nat.succ_mul, List.take_add]
      simp

/-- Rendering succeeds exactly when no served record carries a NaN
cell, and then returns the records unchanged. -/
theorem renderRows_ok {rows : List (Option String × Option String)}
    (h : rows.any rowHasNaN = false) : renderRows rows = Except.ok rows := by
  unfold renderRows
  rw [h]
  simp

/-- When every article of the table has a present title and link, the
projected slice carries no NaN, so `get_newsfeed` renders it. -/
theorem get_newsfeed_ok_of_present (articles : List Article) (skip limit : Nat)
    (hc : ∀ a ∈ articles, a.title.isSome ∧ a.link.isSome) :
    get_newsfeed articles skip limit =
      Except.ok (((articles.map (fun a => (a.title, a.link))).drop skip).take limit) := by
  unfold get_newsfeed
  refine renderRows_ok ?_
  rw [List.any_eq_false]
  intro p hp
  obtain ⟨a, ha, rfl⟩ :=
    List.mem_map.mp (List.mem_of_mem_drop (List.mem_of_mem_take hp))
  obtain ⟨t, ht⟩ := Option.isSome_iff_exists.mp (hc a ha).1
  obtain ⟨li, hl⟩ := Option.isSome_iff_exists.mp (hc a ha).2
  simp [rowHasNaN, ht, hl]

/-- C9 counterexample to the claim as stated: `newsfeed` can fail.  On
a table whose only row has a missing (NaN) link, the served slice
contains a NaN cell and the `JSONResponse` render raises `ValueError`
(`json.dumps(..., allow_nan=False)`) instead of returning the rows. -/
theorem newsfeed_missing_cell_cex :
    get_newsfeed [⟨some "t", none, some "c"⟩] 0 10 =
      Except.error "ValueError: Out of range float values are not JSON compliant" := rfl

/-- C9 as amended: `newsfeed` never raises an out-of-range error: any
page it returns holds at most `limit` rows; a `skip` at or past the
end of the table yields the empty page (rendering `[]` cannot fail);
and over tables whose title and link cells are all present the
endpoint always returns a page.  The only failure is the `ValueError`
raised by the JSON render when a served row has a missing cell. -/
theorem newsfeed_in_range (articles : List Article) (skip limit : Nat) :
    (∀ rows, get_newsfeed articles skip limit = Except.ok rows →
      rows.length ≤ limit) ∧
    (articles.length ≤ skip → get_newsfeed articles skip limit = Except.ok []) ∧
    ((∀ a ∈ articles, a.title.isSome ∧ a.link.isSome) →
      ∃ rows, get_newsfeed articles skip limit = Except.ok rows) := by
  refine ⟨fun rows h => ?_, fun h => ?_, fun hc => ?_⟩
  · unfold get_newsfeed renderRows at h
    split at h
    · cases h
    · cases h
      exact List.length_take_le _ _
  · unfold get_newsfeed
    rw [List.drop_eq_nil_of_le (by simpa using h), List.take_nil]
    rfl
  · exact ⟨_, get_newsfeed_ok_of_present articles skip limit hc⟩

/-- Witness for the amended C9 at a concrete table: the over-the-end
skip returns the empty page, the all-cells-present table renders, and
a returned page respects the length bound. -/
theorem newsfeed_in_range_w :
    get_newsfeed fixtureArticles 5 2 = Except.ok [] ∧
    (∃ rows, get_newsfeed fixtureArticles 0 2 = Except.ok rows) ∧
    [((some "t1" : Option String), (some "x/media/1" : Option String)),
      (some "t2", some "y/media-politics")].length ≤ 2 :=
  ⟨(newsfeed_in_range fixtureArticles 5 2).2.1 (by decide),
   (newsfeed_in_range fixtureArticles 0 2).2.2 (by decide),
   (newsfeed_in_range fixtureArticles 0 2).1 _ (by rfl)⟩

/-- Pointwise-successful `mapM` over `Except` collects the results. -/
theorem mapM_ok_of_forall {α β : Type} (f : α → Except String β) (g : α → β) :
    ∀ l : List α, (∀ x ∈ l, f x = Except.ok (g x)) →
      l.mapM f = Except.ok (l.map g)
  | [], _ => rfl
  | a :: l, h => by
      rw [List.mapM_cons, h a (by simp),
        mapM_ok_of_forall f g l (fun x hx => h x (by simp [hx]))]
      rfl

/-- C7 counterexample to the claim as stated: on a table containing a
row with a missing (NaN) link, the page that serves that row raises
`ValueError` at the JSON render instead of returning its rows, so no
concatenation of page results can reconstruct the table. -/
theorem newsfeed_roundtrip_cex :
    get_newsfeed [⟨some "a", some "l1", some "c"⟩, ⟨some "b", none, some "c"⟩] 1 1 =
      Except.error "ValueError: Out of range float values are not JSON compliant" := rfl

/-- C7 as amended: over tables whose title and link cells are all
present (so that every page renders), paging round-trips: for positive
page size `N` and any page count `k` covering the table
(`length ≤ k * N`), every page succeeds and the concatenation of the
returned pages is exactly the projected `title`/`link` table in the
original order, with no row duplicated or dropped at page
boundaries. -/
theorem newsfeed_roundtrip (articles : List Article) (N k : Nat)
    (_hN : 0 < N) (hk : articles.length ≤ k * N)
    (hcells : ∀ a ∈ articles, a.title.isSome ∧ a.link.isSome) :
    Except.map List.flatten
        ((List.range k).mapM (fun i => get_newsfeed articles (i * N) N)) =
      Except.ok (articles.map (fun a => (a.title, a.link))) := by
  rw [mapM_ok_of_forall (fun i => get_newsfeed articles (i * N) N)
    (fun i => ((articles.map (fun a => (a.title, a.link))).drop (i * N)).take N)
    (List.range k)
    (fun i _ => get_newsfeed_ok_of_present articles (i * N) N hcells)]
  show Except.ok (((List.range k).map _).flatten) = _
  rw [← List.flatMap_def, flatMap_range_chunks,
    List.take_of_length_le (by simpa using hk)]

/-- Witness for the amended C7: three all-present articles paged with
`N = 2`, `k = 2` pages, reassembled exactly. -/
theorem newsfeed_roundtrip_w :
    0 < 2 ∧ (3 : Nat) ≤ 2 * 2 ∧
    Except.map List.flatten
        ((List.range 2).mapM (fun i => get_newsfeed fixtureArticles (i * 2) 2)) =
      Except.ok (fixtureArticles.map (fun a => (a.title, a.link))) :=
  ⟨by decide, by decide,
   newsfeed_roundtrip fixtureArticles 2 2 (by decide) (by decide) (by decide)⟩

/-- Row-wise filter length equals the stand-alone recount of
link-matching articles. -/
theorem length_filter_linkContains (r : RE) :
    ∀ l : List Article, (l.filter (fun a => linkContains r a)).length =
      countLinkMatches r l
  | [] => rfl
  | a :: rest => by
      by_cases h : linkContains r a <;>
        simp [List.filter_cons, h, countLinkMatches, length_filter_linkContains r rest,
          Nat.add_comm]

/-- Row-wise filter-then-project equals the stand-alone selection of
content-matching articles. -/
theorem filter_map_eq_selectByCoin (r : RE) :
    ∀ l : List Article, (l.filter (fun a => contentContainsCI r a)).map
        (fun a => (a.title, a.link)) = selectByCoin r l
  | [] => rfl
  | a :: rest => by
      by_cases h : contentContainsCI r a <;>
        simp [List.filter_cons, h, selectByCoin, filter_map_eq_selectByCoin r rest]

/-- C4 counterexample to the claim as stated: `str.contains` treats its
argument as a regular expression, not a literal substring.  At the
one-article table with link `"abc"` and categories `"a.c"` and `"z"`,
the endpoint answers `(1, 0)` — the dot matched `b` — while the
claimed case-sensitive-substring count of `"a.c"` over the same table
is `0`. -/
theorem comparative_substr_cex :
    get_comparative [⟨some "t", some "abc", some "c"⟩] "a.c" "z" =
      Except.ok (1, 0) ∧
    countLinkSubstr "a.c" [⟨some "t", some "abc", some "c"⟩] = 0 :=
  ⟨rfl, by decide⟩

/-- C4 as amended: for patterns that compile, `get_comparative` returns
the two *independent* row counts of articles whose present `link`
matches `category1`, respectively `category2`, as a Python regular
expression (`re.search`, case-sensitive; plain substring containment
when the category has no regex metacharacters); an article matching
both patterns is counted in both totals, and a missing link matches
neither. -/
theorem comparative_counts_regex (articles : List Article)
    (category1 category2 : String) (r1 r2 : RE)
    (h1 : parseRE category1 = Except.ok r1)
    (h2 : parseRE category2 = Except.ok r2) :
    get_comparative articles category1 category2 =
      Except.ok (countLinkMatches r1 articles, countLinkMatches r2 articles) := by
  unfold get_comparative
  rw [h1, h2]
  simp only [length_filter_linkContains]
  rfl

/-- Witness for the amended C4 at the fixture shape taken from
the specification: three articles, `media` in two links, `politics` in one; the
middle article contains both and is counted in both totals. -/
theorem comparative_counts_regex_w :
    parseRE "media" = Except.ok ((parseRE "media").toOption.getD RE.emp) ∧
    parseRE "politics" = Except.ok ((parseRE "politics").toOption.getD RE.emp) ∧
    get_comparative fixtureArticles "media" "politics" = Except.ok (2, 1) :=
  ⟨rfl, rfl,
    (comparative_counts_regex fixtureArticles "media" "politics"
      ((parseRE "media").toOption.getD RE.emp)
      ((parseRE "politics").toOption.getD RE.emp) rfl rfl).trans (by rfl)⟩

/-- C5 counterexample to the claim as stated: the coin argument is also
compiled as a regular expression (with `re.IGNORECASE`), not matched
as a literal substring.  With content `"abc"` and coin `"a.c"` the
endpoint returns the article, while the claimed case-insensitive
substring test on the same strings is false. -/
theorem by_coin_substr_cex :
    get_by_coin [⟨some "t", some "l", some "abc"⟩] "a.c" =
      Except.ok [(some "t", some "l")] ∧
    isSubstrCI "a.c" "abc" = false :=
  ⟨rfl, by decide⟩

/-- C5 as amended: for coins whose lowercased pattern compiles, and
provided every matching article has a present title and link (a
missing cell in a selected row makes the `JSONResponse` render raise
`ValueError`, as exhibited by the C9/C7 counterexamples for the same
render step), `get_by_coin` returns exactly the `(title, link)` pairs
of the articles whose present `content` matches the coin
case-insensitively as a Python regular expression (plain
case-insensitive substring containment when the coin has no regex
metacharacters), preserving the table order. -/
theorem by_coin_regex_ci (articles : List Article) (coin : String) (r : RE)
    (h : parseRE (pyLower coin) = Except.ok r)
    (hc : ∀ a ∈ articles, contentContainsCI r a = true →
      a.title.isSome ∧ a.link.isSome) :
    get_by_coin articles coin = Except.ok (selectByCoin r articles) := by
  unfold get_by_coin
  rw [h]
  show renderRows ((articles.filter (fun a => contentContainsCI r a)).map
    (fun a => (a.title, a.link))) = _
  rw [renderRows_ok ?hnan, filter_map_eq_selectByCoin]
  case hnan =>
    rw [List.any_eq_false]
    intro p hp
    obtain ⟨a, ha, rfl⟩ := List.mem_map.mp hp
    have ha2 := List.mem_filter.mp ha
    obtain ⟨t, ht⟩ := Option.isSome_iff_exists.mp (hc a ha2.1 ha2.2).1
    obtain ⟨li, hl⟩ := Option.isSome_iff_exists.mp (hc a ha2.1 ha2.2).2
    simp [rowHasNaN, ht, hl]

/-- Witness for the amended C5 on the casing example of the specification:
`"bitcoin"` retrieves the `Bitcoin`/`BITCOIN`/`BitCoin` articles, in
table order, and not the non-mentioning one. -/
theorem by_coin_regex_ci_w :
    parseRE (pyLower "bitcoin") =
      Except.ok ((parseRE (pyLower "bitcoin")).toOption.getD RE.emp) ∧
    get_by_coin fixtureCoins "bitcoin" =
      Except.ok [(some "t1", some "l1"), (some "t2", some "l2"),
        (some "t3", some "l3")] :=
  ⟨rfl,
    (by_coin_regex_ci fixtureCoins "bitcoin"
      ((parseRE (pyLower "bitcoin")).toOption.getD RE.emp) rfl
      (by decide)).trans (by rfl)⟩

/-- A missing link never passes `str.contains(..., na=False)`. -/
theorem linkContains_none {a : Article} (r : RE) (h : a.link = none) :
    linkContains r a = false := by
  unfold linkContains
  rw [h]

/-- A missing content cell never passes
`str.contains(..., case=False, na=False)`. -/
theorem contentContainsCI_none {a : Article} (r : RE) (h : a.content = none) :
    contentContainsCI r a = false := by
  unfold contentContainsCI
  rw [h]

/-- C10: a row whose `link` cell is missing is invisible to
`get_comparative`, and a row whose `content` cell is missing is
invisible to `get_by_coin`: inserting such a row anywhere in the table
leaves the answer of the respective endpoint unchanged (in particular the
row is excluded from the counts and the result list, and `na=False`
turns what would be a NaN comparison into a quiet non-match rather
than an error). -/
theorem missing_cells_excluded (l₁ l₂ : List Article) (a : Article)
    (category1 category2 coin : String) :
    (a.link = none →
      get_comparative (l₁ ++ a :: l₂) category1 category2 =
        get_comparative (l₁ ++ l₂) category1 category2) ∧
    (a.content = none →
      get_by_coin (l₁ ++ a :: l₂) coin = get_by_coin (l₁ ++ l₂) coin) := by
  constructor
  · intro h
    unfold get_comparative
    cases hr1 : parseRE category1 with
    | error e => rfl
    | ok r1 =>
        cases hr2 : parseRE category2 with
        | error e => simp [linkContains_none _ h, List.filter_append]
        | ok r2 => simp [linkContains_none _ h, List.filter_append]
  · intro h
    unfold get_by_coin
    cases hr : parseRE (pyLower coin) with
    | error e => rfl
    | ok r => simp [contentContainsCI_none _ h, List.filter_append]

/-- Witness for C10 at a concrete split table and concrete rows with
missing cells. -/
theorem missing_cells_excluded_w :
    get_comparative (fixtureArticles ++ ⟨some "t", none, some "c"⟩ ::
        fixtureArticles) "media" "politics" =
      get_comparative (fixtureArticles ++ fixtureArticles) "media" "politics" ∧
    get_by_coin (fixtureCoins ++ ⟨some "t", some "l", none⟩ :: fixtureCoins)
        "bitcoin" =
      get_by_coin (fixtureCoins ++ fixtureCoins) "bitcoin" :=
  ⟨(missing_cells_excluded fixtureArticles fixtureArticles
      ⟨some "t", none, some "c"⟩ "media" "politics" "x").1 rfl,
   (missing_cells_excluded fixtureCoins fixtureCoins
      ⟨some "t", some "l", none⟩ "x" "y" "bitcoin").2 rfl⟩

end CryptoBoard
